import Mathlib

/-!
Shallow embedding of the request/reply correlation protocol of the
slashid/watermill repository:

* `components/cqrs` (PubSubRequestReply backend): `ModifyCommandMessageBeforePublish`,
  `ListenForReply` (subscription setup plus the background listener loop),
  `OnCommandProcessed`, `handleNotifyMsg`;
* `components/requestreply`: `SendWithReply`, the handler wrappers
  `NewCommandHandler` / `NewCommandHandlerWithResult`, and
  `originalCommandMsgFromCtx`.

Go maps with string keys are modelled as association lists where `set`
prepends and `get` returns the first binding (or the empty string, like
`message.Metadata.Get`).  Go errors are modelled by the inductive `GoErr`,
wall-clock instants by `Nat`, and the nondeterministic `select` of the
listener goroutine by an explicit list of `ListenEvent`s it processes in
order.  Side effects (acks, log calls, publishes) are returned as explicit
effect lists so that claims about their absence are statable.
-/

/-- String-keyed metadata map of a watermill message. -/
abbrev Metadata := List (String × String)

/-- `message.Metadata.Get`: value under the key, or `""` when absent. -/
def Metadata.get : Metadata → String → String
  | [], _ => ""
  | (k2, v) :: rest, k => if k2 = k then v else Metadata.get rest k

/-- `message.Metadata.Set`: prepend, so that `get` sees the newest binding. -/
def Metadata.set (md : Metadata) (k v : String) : Metadata :=
  (k, v) :: md

/-- A watermill `*message.Message`: UUID, metadata, opaque payload bytes. -/
structure Message where
  uuid : String
  metadata : Metadata
  payload : String
deriving Repr, DecidableEq

/-- Go error values as built by this code: `errors.New`, `errors.Wrap`
(pkg/errors), `CommandHandlerError` and `ReplyTimeoutError` (duration is the
elapsed `Nat` of time units, cause is the wrapped error). -/
inductive GoErr where
  | new : String → GoErr
  | wrap : GoErr → String → GoErr
  | commandHandlerError : GoErr → GoErr
  | replyTimeout : Nat → GoErr → GoErr
deriving Repr, DecidableEq

/-- The `Error()` string of a modelled Go error (pkg/errors wraps as
"message: cause"; the wrapper types defer to their cause). -/
def GoErr.message : GoErr → String
  | .new s => s
  | .wrap e m => m ++ ": " ++ e.message
  | .commandHandlerError e => e.message
  | .replyTimeout _ e => e.message

/-- `RequestReplyNotification`: the wire-level reply envelope (protobuf
message with an error flag and an error string). -/
structure RequestReplyNotification where
  hasError : Bool := false
  error : String := ""
deriving Repr, DecidableEq

/-- `CommandReply` as produced by the listener: the matched notification
message (if any) and an optional error. -/
structure CommandReply where
  replyMsg : Option Message := none
  err : Option GoErr := none
deriving Repr, DecidableEq

/-- `notifyWhenExecutedMetadataKey` constant from the source. -/
def notifyWhenExecutedMetadataKey : String := "_watermill_notify_when_executed"

/-- `handledCommandUuidMetadataKey` constant from the source. -/
def handledCommandUuidMetadataKey : String := "_watermill_command_message_uuid"

/-- A marshaler pair (`PubSubRequestReplyMarshaler`): both directions may
fail with an error string. -/
abbrev UnmarshalFn := Message → Except String RequestReplyNotification

/-- `ModifyCommandMessageBeforePublish`: stamps the expects-notification
marker "1" on the command message and reports no error. -/
def ModifyCommandMessageBeforePublish (cmdMsg : Message) : Message × Option GoErr :=
  ({ cmdMsg with metadata := Metadata.set cmdMsg.metadata notifyWhenExecutedMetadataKey "1" }, none)

/-- Observable side effects of one `handleNotifyMsg` call: the deferred
`msg.Ack()` and the debug log on a UUID mismatch.  No other logging happens
inside `handleNotifyMsg`. -/
inductive NotifyEffect where
  | ack
  | logDifferentUuid
deriving Repr, DecidableEq

/-- `handleNotifyMsg(msg, expectedCommandUuid)`: acks the message (deferred,
hence last), returns `(false, nil)` on a UUID mismatch after logging,
`(false, wrapped err)` on an unmarshal failure, and `(true, handler error?)`
on a match, decoding the notification's error flag. -/
def handleNotifyMsg (unmarshal : UnmarshalFn) (msg : Message)
    (expectedCommandUuid : String) : List NotifyEffect × Bool × Option GoErr :=
  if Metadata.get msg.metadata handledCommandUuidMetadataKey ≠ expectedCommandUuid then
    ([.logDifferentUuid, .ack], false, none)
  else
    match unmarshal msg with
    | .error e =>
        ([.ack], false, some (GoErr.wrap (GoErr.new e) "cannot unmarshal request reply notification"))
    | .ok n =>
        if n.hasError then ([.ack], true, some (GoErr.new n.error))
        else ([.ack], true, none)

/-- One event the listener goroutine's `select` can observe, in the order
the scheduler delivers them: expiry of the (possibly timeout-bounded)
context at instant `now` with cause `cause` (`ctx.Err()`), closure of the
subscription channel at instant `now`, or receipt of a notification
message. -/
inductive ListenEvent where
  | ctxDone (now : Nat) (cause : GoErr)
  | subscriberClosed (now : Nat)
  | notify (msg : Message)
deriving Repr, DecidableEq

/-- The body of the goroutine spawned by `ListenForReply`, run over the
sequence of events it observes.  `start` is the instant captured by
`time.Now()` at the top of `ListenForReply`.  Returns the effects of the
`handleNotifyMsg` calls it made, the `CommandReply` values written to
`replyChan` in order, and whether the goroutine returned (upon which the
deferred `close(replyChan)` and `cancel()` run).  On `ctx.Done` it writes a
`ReplyTimeoutError` with `time.Since(start)` and `ctx.Err()` and returns;
on channel closure likewise with cause "subscriber closed"; on a matching
notification it writes the reply and continues the loop. -/
def listenLoop (unmarshal : UnmarshalFn) (start : Nat) (cmdUuid : String) :
    List ListenEvent → List NotifyEffect × List CommandReply × Bool
  | [] => ([], [], false)
  | .ctxDone now cause :: _ =>
      ([], [{ err := some (GoErr.replyTimeout (now - start) cause) }], true)
  | .subscriberClosed now :: _ =>
      ([], [{ err := some (GoErr.replyTimeout (now - start) (GoErr.new "subscriber closed")) }], true)
  | .notify msg :: rest =>
      let r := handleNotifyMsg unmarshal msg cmdUuid
      let k := listenLoop unmarshal start cmdUuid rest
      if r.2.1 then
        (r.1 ++ k.1,
         { replyMsg := some msg, err := r.2.2.map GoErr.commandHandlerError } :: k.2.1,
         k.2.2)
      else
        (r.1 ++ k.1, k.2.1, k.2.2)

/-- Capacity of `replyChan` as created by `ListenForReply`:
`make(chan CommandReply, 1)`. -/
def replyChanCapacity : Nat := 1

/-- Steps of the synchronous phase of `ListenForReply`, in execution order:
construct the notifications subscriber, generate the reply topic, call
`Subscribe`, call `cancel` (only on a `Subscribe` error), and finally spawn
the listener goroutine just before returning the channel. -/
inductive SetupStep where
  | subscriberConstructor
  | generateTopic
  | subscribe
  | cancelCalled
  | spawnListener
deriving Repr, DecidableEq

/-- The synchronous phase of `ListenForReply`, parameterized by the outcomes
of its three fallible collaborator calls (`SubscriberConstructor`,
`GenerateReplyNotificationTopic`, `Subscribe`); each is `none`/`.ok` on
success or carries the error string.  Returns the executed steps in order
and the error `ListenForReply` returns (`none` means the reply channel is
returned and the goroutine of `listenLoop` has been spawned). -/
def listenForReplySetup (subCtorRes : Option String)
    (genTopicRes : Except String String) (subscribeRes : Option String) :
    List SetupStep × Option GoErr :=
  match subCtorRes with
  | some e =>
      ([.subscriberConstructor],
       some (GoErr.wrap (GoErr.new e) "cannot create request/reply notifications subscriber"))
  | none =>
    match genTopicRes with
    | .error e =>
        ([.subscriberConstructor, .generateTopic],
         some (GoErr.wrap (GoErr.new e) "cannot generate request/reply notifications topic"))
    | .ok _ =>
      match subscribeRes with
      | some e =>
          ([.subscriberConstructor, .generateTopic, .subscribe, .cancelCalled],
           some (GoErr.wrap (GoErr.new e) "cannot subscribe to request/reply notifications topic"))
      | none =>
          ([.subscriberConstructor, .generateTopic, .subscribe, .spawnListener], none)

/-- Observable side effects of one `OnCommandProcessed` call: the debug log
when the marker is missing, the debug log before sending, the call to
`Marshaler.Marshal`, and the call to `Publisher.Publish` with its topic and
message. -/
inductive OcpEffect where
  | logMissingMarker
  | logSending
  | marshalCalled
  | publishCalled (topic : String) (msg : Message)
deriving Repr, DecidableEq

/-- `OnCommandProcessed(cmdMsg, cmd, handleErr)`: a no-op (log only) unless
the command message carries the expects-notification marker "1"; otherwise
builds a `RequestReplyNotification` (error flag and `handleErr.Error()`
when the handler failed), marshals it, stamps the handled-command UUID,
applies the optional `ModifyNotificationMessage` hook, generates the reply
topic and publishes, wrapping any failure.  Parameterized by the marshal
function, the optional hook, the topic generator outcome and the publish
outcome. -/
def OnCommandProcessed
    (marshal : RequestReplyNotification → Except String Message)
    (modifyNotificationMessage : Option (Message → Option GoErr → Except String Message))
    (genTopicRes : Except String String) (publishRes : Option String)
    (cmdMsg : Message) (handleErr : Option GoErr) :
    List OcpEffect × Option GoErr :=
  if Metadata.get cmdMsg.metadata notifyWhenExecutedMetadataKey ≠ "1" then
    ([.logMissingMarker], none)
  else
    let notification : RequestReplyNotification :=
      match handleErr with
      | some e => { hasError := true, error := e.message }
      | none => {}
    match marshal notification with
    | .error e =>
        ([.logSending, .marshalCalled],
         some (GoErr.wrap (GoErr.new e) "cannot marshal request reply notification"))
    | .ok m0 =>
      let m1 : Message :=
        { m0 with metadata := Metadata.set m0.metadata handledCommandUuidMetadataKey cmdMsg.uuid }
      match modifyNotificationMessage with
      | some f =>
        match f m1 handleErr with
        | .error e =>
            ([.logSending, .marshalCalled],
             some (GoErr.wrap (GoErr.new e) "cannot modify notification message"))
        | .ok m2 =>
          match genTopicRes with
          | .error e =>
              ([.logSending, .marshalCalled],
               some (GoErr.wrap (GoErr.new e) "cannot generate request/reply notify topic"))
          | .ok topic =>
            match publishRes with
            | some e =>
                ([.logSending, .marshalCalled, .publishCalled topic m2],
                 some (GoErr.wrap (GoErr.new e) "cannot publish command executed message"))
            | none => ([.logSending, .marshalCalled, .publishCalled topic m2], none)
      | none =>
        match genTopicRes with
        | .error e =>
            ([.logSending, .marshalCalled],
             some (GoErr.wrap (GoErr.new e) "cannot generate request/reply notify topic"))
        | .ok topic =>
          match publishRes with
          | some e =>
              ([.logSending, .marshalCalled, .publishCalled topic m1],
               some (GoErr.wrap (GoErr.new e) "cannot publish command executed message"))
          | none => ([.logSending, .marshalCalled, .publishCalled topic m1], none)

/-- `OperationIDMetadataKey` of the `requestreply` package.  Modelled from
the spec: the constant's defining Go file is not under src/ (only its use in
`SendWithReply` is); the spec fixes it as the "operation id" metadata key, a
fixed string constant set on outgoing commands. -/
def OperationIDMetadataKey : String := "_watermill_requestreply_operation_id"

/-- Steps of `SendWithReply` in execution order: generate the operation id
(`watermill.NewUUID`), call `Backend.ListenForNotifications` with it, call
`CommandBus.SendWithModifiedMessage`, and run the deferred `cancel` (which
fires exactly when an error is returned). -/
inductive SendStep where
  | generatedOperationID (id : String)
  | listenForNotifications (opId : String)
  | sendCommand (opId : String)
  | cancelCalled
deriving Repr, DecidableEq

/-- The metadata mutation `SendWithReply` installs on the outgoing command
message: set `OperationIDMetadataKey` to the generated operation id. -/
def sendWithReplyModify (operationID : String) (m : Message) : Message :=
  { m with metadata := Metadata.set m.metadata OperationIDMetadataKey operationID }

/-- `SendWithReply`, parameterized by the generated operation id and the
outcomes of `ListenForNotifications` and `SendWithModifiedMessage`.
Returns the executed steps in order and the error returned to the caller
(`none` means the reply channel and cancel function are handed back with
the deferred cancel not having fired). -/
def SendWithReply (operationID : String) (listenRes : Option GoErr)
    (sendRes : Option GoErr) : List SendStep × Option GoErr :=
  match listenRes with
  | some e =>
      ([.generatedOperationID operationID, .listenForNotifications operationID, .cancelCalled],
       some (GoErr.wrap e "cannot listen for reply"))
  | none =>
    match sendRes with
    | some e =>
        ([.generatedOperationID operationID, .listenForNotifications operationID,
          .sendCommand operationID, .cancelCalled],
         some (GoErr.wrap e "cannot send command"))
    | none =>
        ([.generatedOperationID operationID, .listenForNotifications operationID,
          .sendCommand operationID], none)

/-- Count of command sends in a `SendWithReply` trace. -/
def sendCount (tr : List SendStep) : Nat :=
  tr.countP fun s => match s with
    | .sendCommand _ => true
    | _ => false

/-- Error message of `originalCommandMsgFromCtx` when the original message
is absent from the context. -/
def originalMsgMissingErr : GoErr :=
  GoErr.new ("original message not found in context, did you passed context correctly everywhere? " ++
    "did you used cqrs.CommandProcessor? " ++
    "if you are using custom implementation, please call cqrs.CtxWithOriginalMessage on context passed to handler")

/-- `originalCommandMsgFromCtx`: yields the original inbound command
message stored in the context, or the integration error when absent. -/
def originalCommandMsgFromCtx (ctxOriginalMsg : Option Message) : Except GoErr Message :=
  match ctxOriginalMsg with
  | none => .error originalMsgMissingErr
  | some m => .ok m

/-- Observable effect of the handler wrappers: one `OnCommandProcessed`
call with the handler's result, the handler's error and the located
original command message. -/
inductive WrapperEffect (Result : Type) where
  | onCommandProcessed (result : Result) (handleErr : Option GoErr) (cmdMsg : Message)
deriving Repr, DecidableEq

/-- The function wrapped by `NewCommandHandlerWithResult`: the handler has
already run producing `handleRes = (resp, handlerErr)`; the wrapper then
locates the original message in the context and, if found, invokes
`backend.OnCommandProcessed` once with the outcome (whose return value
`backendRes` it propagates); if not found it returns the integration error
without invoking the backend. -/
def newCommandHandlerWithResultWrapped {Result : Type} (ctxOriginalMsg : Option Message)
    (handleRes : Result × Option GoErr) (backendRes : Option GoErr) :
    List (WrapperEffect Result) × Option GoErr :=
  match originalCommandMsgFromCtx ctxOriginalMsg with
  | .error e => ([], some e)
  | .ok m => ([.onCommandProcessed handleRes.1 handleRes.2 m], backendRes)

/-- The function wrapped by `NewCommandHandler` (no result value): same
shape with `struct` `Unit` result. -/
def newCommandHandlerWrapped (ctxOriginalMsg : Option Message)
    (handlerErr : Option GoErr) (backendRes : Option GoErr) :
    List (WrapperEffect Unit) × Option GoErr :=
  match originalCommandMsgFromCtx ctxOriginalMsg with
  | .error e => ([], some e)
  | .ok m => ([.onCommandProcessed () handlerErr m], backendRes)

/-- Channel-blocking model: the listener performs its writes in order; a
read schedule `reads` gives, for each write index `i` (0-based, `i` prior
writes completed), how many items the caller has taken off the channel
before that write; the write blocks when the buffer is full, i.e. when
`capacity ≤ i - reads i`.  A schedule is valid when `reads i ≤ i`. -/
def someWriteBlocks (capacity numWrites : Nat) (reads : Nat → Nat) : Bool :=
  (List.range numWrites).any fun i => capacity ≤ i - reads i

/-- The read schedule of a caller that never reads the channel. -/
def zeroReads : Nat → Nat := fun _ => 0

/-- An event is silent for a listener when processing it neither writes a
reply nor terminates the loop: a notification that `handleNotifyMsg` does
not report as a match. -/
def silentEvent (unmarshal : UnmarshalFn) (cmdUuid : String) : ListenEvent → Bool
  | .notify m => !(handleNotifyMsg unmarshal m cmdUuid).2.1
  | _ => false

/-- Reading back a key just set yields the value set. -/
theorem Metadata.get_set (md : Metadata) (k v : String) :
    Metadata.get (Metadata.set md k v) k = v := by
  simp [Metadata.set, Metadata.get]

/-- A prefix of silent events changes neither the replies written nor
whether the listener terminated. -/
theorem listenLoop_silent_skip (unmarshal : UnmarshalFn) (start : Nat)
    (cmdUuid : String) (pre evs : List ListenEvent)
    (h : pre.all (silentEvent unmarshal cmdUuid) = true) :
    (listenLoop unmarshal start cmdUuid (pre ++ evs)).2 =
      (listenLoop unmarshal start cmdUuid evs).2 := by
  induction pre with
  | nil => rfl
  | cons e pre ih =>
      rw [List.all_cons, Bool.and_eq_true] at h
      obtain ⟨he, hpre⟩ := h
      cases e with
      | ctxDone now cause => simp [silentEvent] at he
      | subscriberClosed now => simp [silentEvent] at he
      | notify m =>
          simp only [silentEvent, Bool.not_eq_true'] at he
          simp only [List.cons_append, listenLoop, he, if_false, Bool.false_eq_true]
          exact ih hpre

/-- Concrete marshaler used to instantiate the marshaler parameters in
witnesses: the payload encodes the notification's error flag and message. -/
def testMarshal : RequestReplyNotification → Except String Message := fun n =>
  if n.hasError then .ok { uuid := "n1", metadata := [], payload := "E:" ++ n.error }
  else .ok { uuid := "n1", metadata := [], payload := "OK" }

/-- Concrete unmarshal function matching `testMarshal` on the payloads the
witnesses use, and failing on anything else. -/
def testUnmarshal : UnmarshalFn := fun msg =>
  if msg.payload = "OK" then .ok {}
  else if msg.payload = "E:boom" then .ok { hasError := true, error := "boom" }
  else .error "cannot decode"

/-- A notification message matching command UUID "cmd-1" with a successful
(no-error) payload. -/
def matchMsgOK : Message :=
  { uuid := "n1", metadata := [(handledCommandUuidMetadataKey, "cmd-1")], payload := "OK" }

/-- A notification message for a different command UUID. -/
def mismatchMsg : Message :=
  { uuid := "n2", metadata := [(handledCommandUuidMetadataKey, "cmd-other")], payload := "OK" }

/-- A notification message matching "cmd-1" whose payload `testUnmarshal`
rejects. -/
def badPayloadMsg : Message :=
  { uuid := "n3", metadata := [(handledCommandUuidMetadataKey, "cmd-1")], payload := "XX" }

/-- C1: counterexample.  With two matching notifications the listener
writes two Replies, and after a single matching notification it has not
returned (so the channel is not closed after the first Reply): the claim
that the listener writes at most one Reply, returns on the first match,
and closes the channel after that single Reply is false on the code. -/
theorem listenLoop_match_does_not_terminate_cex :
    (listenLoop testUnmarshal 0 "cmd-1"
        [.notify matchMsgOK, .notify matchMsgOK]).2.1.length = 2 ∧
    (listenLoop testUnmarshal 0 "cmd-1" [.notify matchMsgOK]).2.2 = false := by
  constructor <;> rfl

/-- C1 (amended): upon each matching notification the listener builds the
Reply (attaching `CommandHandlerError` exactly when the notification
carried a handler error), writes it to the delivery channel, and continues
the loop: the replies and termination of the remaining events are
unchanged, and after a single match the goroutine has not returned, so the
channel stays open. -/
theorem listenLoop_match_writes_and_continues (unmarshal : UnmarshalFn)
    (start : Nat) (cmdUuid : String) (m : Message) (rest : List ListenEvent)
    (h : (handleNotifyMsg unmarshal m cmdUuid).2.1 = true) :
    listenLoop unmarshal start cmdUuid (.notify m :: rest) =
      ((handleNotifyMsg unmarshal m cmdUuid).1 ++ (listenLoop unmarshal start cmdUuid rest).1,
       { replyMsg := some m,
         err := (handleNotifyMsg unmarshal m cmdUuid).2.2.map GoErr.commandHandlerError } ::
         (listenLoop unmarshal start cmdUuid rest).2.1,
       (listenLoop unmarshal start cmdUuid rest).2.2) ∧
    (listenLoop unmarshal start cmdUuid [.notify m]).2.2 = false := by
  constructor
  · simp only [listenLoop, h, if_true]
  · simp only [listenLoop, h, if_true]

/-- C1 witness. -/
theorem listenLoop_match_writes_and_continues_witness :
    listenLoop testUnmarshal 0 "cmd-1" [.notify matchMsgOK, .notify matchMsgOK] =
      ((handleNotifyMsg testUnmarshal matchMsgOK "cmd-1").1 ++
         (listenLoop testUnmarshal 0 "cmd-1" [.notify matchMsgOK]).1,
       { replyMsg := some matchMsgOK,
         err := (handleNotifyMsg testUnmarshal matchMsgOK "cmd-1").2.2.map GoErr.commandHandlerError } ::
         (listenLoop testUnmarshal 0 "cmd-1" [.notify matchMsgOK]).2.1,
       (listenLoop testUnmarshal 0 "cmd-1" [.notify matchMsgOK]).2.2) ∧
    (listenLoop testUnmarshal 0 "cmd-1" [.notify matchMsgOK]).2.2 = false :=
  listenLoop_match_writes_and_continues testUnmarshal 0 "cmd-1" matchMsgOK
    [.notify matchMsgOK] (by decide)

/-- C3: a notification whose handled-command-id metadata differs from the
expected UUID is logged and acked, contributes no Reply, and the loop
continues exactly as if the event had not occurred; in particular a lone
mismatched notification leaves the listener running. -/
theorem listenLoop_mismatch_skips (unmarshal : UnmarshalFn) (start : Nat)
    (cmdUuid : String) (m : Message) (rest : List ListenEvent)
    (h : Metadata.get m.metadata handledCommandUuidMetadataKey ≠ cmdUuid) :
    handleNotifyMsg unmarshal m cmdUuid = ([.logDifferentUuid, .ack], false, none) ∧
    listenLoop unmarshal start cmdUuid (.notify m :: rest) =
      ([.logDifferentUuid, .ack] ++ (listenLoop unmarshal start cmdUuid rest).1,
       (listenLoop unmarshal start cmdUuid rest).2.1,
       (listenLoop unmarshal start cmdUuid rest).2.2) ∧
    (listenLoop unmarshal start cmdUuid [.notify m]).2.2 = false := by
  have hh : handleNotifyMsg unmarshal m cmdUuid = ([.logDifferentUuid, .ack], false, none) := by
    simp [handleNotifyMsg, h]
  refine ⟨hh, ?_, ?_⟩
  · simp only [listenLoop, hh, if_false, Bool.false_eq_true]
  · simp only [listenLoop, hh, if_false, Bool.false_eq_true]

/-- C3 witness. -/
theorem listenLoop_mismatch_skips_witness :
    handleNotifyMsg testUnmarshal mismatchMsg "cmd-1" = ([.logDifferentUuid, .ack], false, none) ∧
    listenLoop testUnmarshal 0 "cmd-1" [.notify mismatchMsg, .notify matchMsgOK] =
      ([.logDifferentUuid, .ack] ++ (listenLoop testUnmarshal 0 "cmd-1" [.notify matchMsgOK]).1,
       (listenLoop testUnmarshal 0 "cmd-1" [.notify matchMsgOK]).2.1,
       (listenLoop testUnmarshal 0 "cmd-1" [.notify matchMsgOK]).2.2) ∧
    (listenLoop testUnmarshal 0 "cmd-1" [.notify mismatchMsg]).2.2 = false :=
  listenLoop_mismatch_skips testUnmarshal 0 "cmd-1" mismatchMsg [.notify matchMsgOK]
    (by decide)

/-- C10: a matching notification whose payload fails to unmarshal is acked
(with no log effect on that path), the unmarshal error is discarded (no
Reply carries it and nothing is surfaced), and the loop continues waiting:
the remaining events yield the same replies and termination. -/
theorem listenLoop_unmarshal_failure_skips (unmarshal : UnmarshalFn)
    (start : Nat) (cmdUuid : String) (m : Message) (rest : List ListenEvent)
    (e : String) (h1 : Metadata.get m.metadata handledCommandUuidMetadataKey = cmdUuid)
    (h2 : unmarshal m = .error e) :
    handleNotifyMsg unmarshal m cmdUuid =
      ([.ack], false, some (GoErr.wrap (GoErr.new e) "cannot unmarshal request reply notification")) ∧
    listenLoop unmarshal start cmdUuid (.notify m :: rest) =
      ([.ack] ++ (listenLoop unmarshal start cmdUuid rest).1,
       (listenLoop unmarshal start cmdUuid rest).2.1,
       (listenLoop unmarshal start cmdUuid rest).2.2) ∧
    (listenLoop unmarshal start cmdUuid [.notify m]).2.2 = false := by
  have hh : handleNotifyMsg unmarshal m cmdUuid =
      ([.ack], false, some (GoErr.wrap (GoErr.new e) "cannot unmarshal request reply notification")) := by
    simp [handleNotifyMsg, h1, h2]
  refine ⟨hh, ?_, ?_⟩
  · simp only [listenLoop, hh, if_false, Bool.false_eq_true]
  · simp only [listenLoop, hh, if_false, Bool.false_eq_true]

/-- C10 witness. -/
theorem listenLoop_unmarshal_failure_skips_witness :
    handleNotifyMsg testUnmarshal badPayloadMsg "cmd-1" =
      ([.ack], false,
       some (GoErr.wrap (GoErr.new "cannot decode") "cannot unmarshal request reply notification")) ∧
    listenLoop testUnmarshal 0 "cmd-1" [.notify badPayloadMsg, .notify matchMsgOK] =
      ([.ack] ++ (listenLoop testUnmarshal 0 "cmd-1" [.notify matchMsgOK]).1,
       (listenLoop testUnmarshal 0 "cmd-1" [.notify matchMsgOK]).2.1,
       (listenLoop testUnmarshal 0 "cmd-1" [.notify matchMsgOK]).2.2) ∧
    (listenLoop testUnmarshal 0 "cmd-1" [.notify badPayloadMsg]).2.2 = false :=
  listenLoop_unmarshal_failure_skips testUnmarshal 0 "cmd-1" badPayloadMsg
    [.notify matchMsgOK] "cannot decode" (by decide) (by rfl)

/-- C4: if, after a prefix of silent events (mismatches, unmarshal
failures), the context expires at instant `now` with cause `cause`, or the
subscription channel is closed at `now`, the listener writes exactly one
Reply — a `ReplyTimeoutError` carrying the elapsed time `now - start`
(measured from the start of `ListenForReply`) and the triggering cause
(`ctx.Err()`, resp. "subscriber closed") — then returns, closing the
channel; and since the timeout-bounded context is created at some
`ctxCreated ≥ start` and expires no earlier than `ctxCreated + bound`, the
elapsed time is at least the configured bound. -/
theorem listenLoop_timeout_single_reply (unmarshal : UnmarshalFn)
    (start : Nat) (cmdUuid : String) (pre rest : List ListenEvent)
    (now : Nat) (cause : GoErr) (ctxCreated bound : Nat)
    (hpre : pre.all (silentEvent unmarshal cmdUuid) = true) :
    (listenLoop unmarshal start cmdUuid (pre ++ .ctxDone now cause :: rest)).2 =
      ([{ replyMsg := none, err := some (GoErr.replyTimeout (now - start) cause) }], true) ∧
    (listenLoop unmarshal start cmdUuid (pre ++ .subscriberClosed now :: rest)).2 =
      ([{ replyMsg := none,
          err := some (GoErr.replyTimeout (now - start) (GoErr.new "subscriber closed")) }], true) ∧
    (start ≤ ctxCreated → ctxCreated + bound ≤ now → bound ≤ now - start) := by
  refine ⟨?_, ?_, ?_⟩
  · rw [listenLoop_silent_skip unmarshal start cmdUuid pre _ hpre]
    rfl
  · rw [listenLoop_silent_skip unmarshal start cmdUuid pre _ hpre]
    rfl
  · intro h1 h2
    omega

/-- C4 witness: start = 0, context created at instant 2 with bound 50,
expiry observed at instant 60, after one mismatched notification. -/
theorem listenLoop_timeout_single_reply_witness :
    (listenLoop testUnmarshal 0 "cmd-1"
        ([.notify mismatchMsg] ++ .ctxDone 60 (GoErr.new "context deadline exceeded") :: [])).2 =
      ([{ replyMsg := none,
          err := some (GoErr.replyTimeout 60 (GoErr.new "context deadline exceeded")) }], true) ∧
    (listenLoop testUnmarshal 0 "cmd-1"
        ([.notify mismatchMsg] ++ .subscriberClosed 60 :: [])).2 =
      ([{ replyMsg := none,
          err := some (GoErr.replyTimeout 60 (GoErr.new "subscriber closed")) }], true) ∧
    (0 ≤ 2 → 2 + 50 ≤ 60 → 50 ≤ 60 - 0) :=
  listenLoop_timeout_single_reply testUnmarshal 0 "cmd-1" [.notify mismatchMsg] []
    60 (GoErr.new "context deadline exceeded") 2 50 (by decide)

/-- C2: `SendWithReply` is atomic with respect to setup failure.  When
`ListenForNotifications` fails, no command send appears in the trace, the
deferred cancel has fired, and the wrapped error is returned; when the
subsequent send fails, cancel has fired and the wrapped send error is
returned. -/
theorem SendWithReply_setup_failure_atomic (operationID : String)
    (e1 e2 : GoErr) (sendRes : Option GoErr) :
    (sendCount (SendWithReply operationID (some e1) sendRes).1 = 0 ∧
     SendStep.cancelCalled ∈ (SendWithReply operationID (some e1) sendRes).1 ∧
     (SendWithReply operationID (some e1) sendRes).2 =
       some (GoErr.wrap e1 "cannot listen for reply")) ∧
    (SendStep.cancelCalled ∈ (SendWithReply operationID none (some e2)).1 ∧
     (SendWithReply operationID none (some e2)).2 =
       some (GoErr.wrap e2 "cannot send command")) := by
  refine ⟨⟨?_, ?_, rfl⟩, ?_, rfl⟩ <;> simp [SendWithReply, sendCount]

/-- C6: `SendWithReply` runs strictly in order — the trace always begins
with generating the operation id followed by the listen call (so the listen
call precedes any send), a successful listen is followed by exactly one
send, a failed listen by none; the metadata mutation installed on the sent
command message carries the operation id under `OperationIDMetadataKey`;
and whenever `ListenForReply` returns successfully its trace is exactly
constructor, topic generation, `Subscribe`, then spawning the listener —
so `Subscribe` has returned before `ListenForReply` returns. -/
theorem SendWithReply_strict_order (operationID : String)
    (listenRes sendRes : Option GoErr) (m : Message)
    (subCtorRes : Option String) (genTopicRes : Except String String)
    (subscribeRes : Option String) :
    ((SendWithReply operationID listenRes sendRes).1.take 2 =
       [.generatedOperationID operationID, .listenForNotifications operationID]) ∧
    (listenRes = none → sendCount (SendWithReply operationID listenRes sendRes).1 = 1) ∧
    (∀ e, listenRes = some e → sendCount (SendWithReply operationID listenRes sendRes).1 = 0) ∧
    Metadata.get (sendWithReplyModify operationID m).metadata OperationIDMetadataKey =
      operationID ∧
    ((listenForReplySetup subCtorRes genTopicRes subscribeRes).2 = none →
      (listenForReplySetup subCtorRes genTopicRes subscribeRes).1 =
        [.subscriberConstructor, .generateTopic, .subscribe, .spawnListener]) := by
  refine ⟨?_, ?_, ?_, ?_, ?_⟩
  · cases listenRes <;> cases sendRes <;> rfl
  · intro h
    subst h
    cases sendRes <;> simp [SendWithReply, sendCount]
  · intro e h
    subst h
    simp [SendWithReply, sendCount]
  · exact Metadata.get_set m.metadata OperationIDMetadataKey operationID
  · intro h
    cases subCtorRes with
    | some e => simp [listenForReplySetup] at h
    | none =>
        cases genTopicRes with
        | error e => simp [listenForReplySetup] at h
        | ok t =>
            cases subscribeRes with
            | some e => simp [listenForReplySetup] at h
            | none => rfl

/-- C6 witness. -/
theorem SendWithReply_strict_order_witness :
    ((SendWithReply "op-1" none none).1.take 2 =
       [.generatedOperationID "op-1", .listenForNotifications "op-1"]) ∧
    ((none : Option GoErr) = none → sendCount (SendWithReply "op-1" none none).1 = 1) ∧
    (∀ e, (none : Option GoErr) = some e → sendCount (SendWithReply "op-1" none none).1 = 0) ∧
    Metadata.get (sendWithReplyModify "op-1" matchMsgOK).metadata OperationIDMetadataKey =
      "op-1" ∧
    ((listenForReplySetup none (.ok "topic-1") none).2 = none →
      (listenForReplySetup none (.ok "topic-1") none).1 =
        [.subscriberConstructor, .generateTopic, .subscribe, .spawnListener]) :=
  SendWithReply_strict_order "op-1" none none matchMsgOK none (.ok "topic-1") none

/-- A command message carrying the expects-notification marker, as stamped
by `ModifyCommandMessageBeforePublish`. -/
def cmdWithMarker : Message :=
  { uuid := "cmd-1", metadata := [(notifyWhenExecutedMetadataKey, "1")], payload := "cmd" }

/-- C5: handler errors round-trip exactly.  When the handler fails with
error `e`, `OnCommandProcessed` marshals a notification with the error flag
set and message `e.Error()` and publishes it stamped with the command UUID;
assuming the marshaler round-trips that notification, the listener matches
the published message and delivers a Reply whose error is
`CommandHandlerError` wrapping exactly the string `e.Error()`.  When the
handler succeeds, the published notification carries no error flag and the
matching Reply has no error. -/
theorem onCommandProcessed_handler_error_roundtrip
    (marshal : RequestReplyNotification → Except String Message)
    (unmarshal : UnmarshalFn) (topic : String) (cmdMsg : Message)
    (e : GoErr) (m0 m0s m1 m1s : Message) (rest : List ListenEvent) (start : Nat)
    (hmarker : Metadata.get cmdMsg.metadata notifyWhenExecutedMetadataKey = "1")
    (hE : marshal { hasError := true, error := e.message } = .ok m0)
    (hS : marshal {} = .ok m0s)
    (hm1 : m1 = { m0 with
      metadata := Metadata.set m0.metadata handledCommandUuidMetadataKey cmdMsg.uuid })
    (hm1s : m1s = { m0s with
      metadata := Metadata.set m0s.metadata handledCommandUuidMetadataKey cmdMsg.uuid })
    (hunmE : unmarshal m1 = .ok { hasError := true, error := e.message })
    (hunmS : unmarshal m1s = .ok {}) :
    OnCommandProcessed marshal none (.ok topic) none cmdMsg (some e) =
      ([.logSending, .marshalCalled, .publishCalled topic m1], none) ∧
    (listenLoop unmarshal start cmdMsg.uuid (.notify m1 :: rest)).2.1 =
      { replyMsg := some m1,
        err := some (GoErr.commandHandlerError (GoErr.new e.message)) } ::
        (listenLoop unmarshal start cmdMsg.uuid rest).2.1 ∧
    OnCommandProcessed marshal none (.ok topic) none cmdMsg none =
      ([.logSending, .marshalCalled, .publishCalled topic m1s], none) ∧
    (listenLoop unmarshal start cmdMsg.uuid (.notify m1s :: rest)).2.1 =
      { replyMsg := some m1s, err := none } ::
        (listenLoop unmarshal start cmdMsg.uuid rest).2.1 := by
  have hgetE : Metadata.get m1.metadata handledCommandUuidMetadataKey = cmdMsg.uuid := by
    rw [hm1]
    exact Metadata.get_set m0.metadata handledCommandUuidMetadataKey cmdMsg.uuid
  have hgetS : Metadata.get m1s.metadata handledCommandUuidMetadataKey = cmdMsg.uuid := by
    rw [hm1s]
    exact Metadata.get_set m0s.metadata handledCommandUuidMetadataKey cmdMsg.uuid
  have hhE : handleNotifyMsg unmarshal m1 cmdMsg.uuid =
      ([.ack], true, some (GoErr.new e.message)) := by
    simp [handleNotifyMsg, hgetE, hunmE]
  have hhS : handleNotifyMsg unmarshal m1s cmdMsg.uuid = ([.ack], true, none) := by
    simp [handleNotifyMsg, hgetS, hunmS]
  refine ⟨?_, ?_, ?_, ?_⟩
  · simp [OnCommandProcessed, hmarker, hE, hm1]
  · simp only [listenLoop, hhE, if_true, Option.map_some']
  · simp [OnCommandProcessed, hmarker, hS, hm1s]
  · simp only [listenLoop, hhS, if_true, Option.map_none']

/-- The notification message `OnCommandProcessed` publishes for a failed
handler ("boom") of command "cmd-1" under `testMarshal`. -/
def publishedErrMsg : Message :=
  { uuid := "n1", metadata := [(handledCommandUuidMetadataKey, "cmd-1")], payload := "E:boom" }

/-- The notification message `OnCommandProcessed` publishes for a
successful handler of command "cmd-1" under `testMarshal`. -/
def publishedOkMsg : Message :=
  { uuid := "n1", metadata := [(handledCommandUuidMetadataKey, "cmd-1")], payload := "OK" }

/-- C5 witness: handler error "boom", `testMarshal`/`testUnmarshal` as the
round-tripping marshaler. -/
theorem onCommandProcessed_handler_error_roundtrip_witness :
    OnCommandProcessed testMarshal none (.ok "topic-1") none cmdWithMarker
        (some (GoErr.new "boom")) =
      ([.logSending, .marshalCalled, .publishCalled "topic-1" publishedErrMsg], none) ∧
    (listenLoop testUnmarshal 0 cmdWithMarker.uuid (.notify publishedErrMsg :: [])).2.1 =
      { replyMsg := some publishedErrMsg,
        err := some (GoErr.commandHandlerError (GoErr.new (GoErr.new "boom").message)) } ::
        (listenLoop testUnmarshal 0 cmdWithMarker.uuid []).2.1 ∧
    OnCommandProcessed testMarshal none (.ok "topic-1") none cmdWithMarker none =
      ([.logSending, .marshalCalled, .publishCalled "topic-1" publishedOkMsg], none) ∧
    (listenLoop testUnmarshal 0 cmdWithMarker.uuid (.notify publishedOkMsg :: [])).2.1 =
      { replyMsg := some publishedOkMsg, err := none } ::
        (listenLoop testUnmarshal 0 cmdWithMarker.uuid []).2.1 :=
  onCommandProcessed_handler_error_roundtrip testMarshal testUnmarshal "topic-1"
    cmdWithMarker (GoErr.new "boom")
    { uuid := "n1", metadata := [], payload := "E:boom" }
    { uuid := "n1", metadata := [], payload := "OK" }
    publishedErrMsg publishedOkMsg
    [] 0 (by rfl) (by rfl) (by rfl) (by rfl) (by rfl) (by rfl) (by rfl)

/-- C7: the wrapped handlers of `NewCommandHandler` and
`NewCommandHandlerWithResult` invoke `OnCommandProcessed` exactly once with
the handler's result and error (also when the handler errored), provided
the original inbound message is in the context; when it is absent they
return the integration error and do not invoke `OnCommandProcessed`. -/
theorem commandHandler_invokes_onCommandProcessed_once (Result : Type)
    (res : Result) (handlerErr backendRes : Option GoErr) (m : Message) :
    newCommandHandlerWithResultWrapped (some m) (res, handlerErr) backendRes =
      ([.onCommandProcessed res handlerErr m], backendRes) ∧
    @newCommandHandlerWithResultWrapped Result none (res, handlerErr) backendRes =
      ([], some originalMsgMissingErr) ∧
    newCommandHandlerWrapped (some m) handlerErr backendRes =
      ([.onCommandProcessed () handlerErr m], backendRes) ∧
    newCommandHandlerWrapped none handlerErr backendRes =
      ([], some originalMsgMissingErr) :=
  ⟨rfl, rfl, rfl, rfl⟩

/-- C8: when the command message's metadata does not carry the marker "1"
under `notifyWhenExecutedMetadataKey`, `OnCommandProcessed` only logs: it
performs no marshalling, publishes nothing, and returns nil. -/
theorem onCommandProcessed_noop_without_marker
    (marshal : RequestReplyNotification → Except String Message)
    (hook : Option (Message → Option GoErr → Except String Message))
    (genTopicRes : Except String String) (publishRes : Option String)
    (cmdMsg : Message) (handleErr : Option GoErr)
    (h : Metadata.get cmdMsg.metadata notifyWhenExecutedMetadataKey ≠ "1") :
    OnCommandProcessed marshal hook genTopicRes publishRes cmdMsg handleErr =
      ([.logMissingMarker], none) ∧
    OcpEffect.marshalCalled ∉
      (OnCommandProcessed marshal hook genTopicRes publishRes cmdMsg handleErr).1 ∧
    ∀ topic msg, OcpEffect.publishCalled topic msg ∉
      (OnCommandProcessed marshal hook genTopicRes publishRes cmdMsg handleErr).1 := by
  have heq : OnCommandProcessed marshal hook genTopicRes publishRes cmdMsg handleErr =
      ([.logMissingMarker], none) := by
    simp [OnCommandProcessed, h]
  refine ⟨heq, ?_, ?_⟩
  · rw [heq]
    simp
  · intro topic msg
    rw [heq]
    simp

/-- C8 witness: `mismatchMsg` carries no expects-notification marker. -/
theorem onCommandProcessed_noop_without_marker_witness :
    OnCommandProcessed testMarshal none (.ok "topic-1") none mismatchMsg
        (some (GoErr.new "boom")) = ([.logMissingMarker], none) ∧
    OcpEffect.marshalCalled ∉
      (OnCommandProcessed testMarshal none (.ok "topic-1") none mismatchMsg
        (some (GoErr.new "boom"))).1 ∧
    ∀ topic msg, OcpEffect.publishCalled topic msg ∉
      (OnCommandProcessed testMarshal none (.ok "topic-1") none mismatchMsg
        (some (GoErr.new "boom"))).1 :=
  onCommandProcessed_noop_without_marker testMarshal none (.ok "topic-1") none
    mismatchMsg (some (GoErr.new "boom")) (by decide)

/-- C9: counterexample.  The delivery channel has capacity one, but the
worker can block writing to it: after two matching notifications the
listener has performed two writes, and under the (valid, never-reading)
schedule `zeroReads` the second write finds the one-slot buffer full. -/
theorem replyChan_write_can_block_cex :
    someWriteBlocks replyChanCapacity
      ((listenLoop testUnmarshal 0 "cmd-1"
          [.notify matchMsgOK, .notify matchMsgOK]).2.1.length) zeroReads = true ∧
    zeroReads 0 = 0 ∧ zeroReads 1 = 0 := by
  refine ⟨?_, rfl, rfl⟩
  rfl

/-- C9 (amended): the delivery channel is created with capacity exactly
one, and on any run in which the listener writes at most one Reply no write
blocks, under every read schedule; a write can block only once the listener
has written more than one Reply before the caller reads. -/
theorem replyChan_capacity_one_single_write_no_block (unmarshal : UnmarshalFn)
    (start : Nat) (cmdUuid : String) (evs : List ListenEvent) (reads : Nat → Nat)
    (h : (listenLoop unmarshal start cmdUuid evs).2.1.length ≤ 1) :
    replyChanCapacity = 1 ∧
    someWriteBlocks replyChanCapacity
      ((listenLoop unmarshal start cmdUuid evs).2.1.length) reads = false := by
  refine ⟨rfl, ?_⟩
  have h0 : (listenLoop unmarshal start cmdUuid evs).2.1.length = 0 ∨
      (listenLoop unmarshal start cmdUuid evs).2.1.length = 1 := by omega
  rcases h0 with h0 | h0 <;> rw [h0] <;>
    simp [someWriteBlocks, replyChanCapacity, List.range_succ, Nat.zero_sub]

/-- C9 witness: a single matching notification yields one write, which does
not block even when the caller never reads. -/
theorem replyChan_capacity_one_single_write_no_block_witness :
    replyChanCapacity = 1 ∧
    someWriteBlocks replyChanCapacity
      ((listenLoop testUnmarshal 0 "cmd-1" [.notify matchMsgOK]).2.1.length) zeroReads = false :=
  replyChan_capacity_one_single_write_no_block testUnmarshal 0 "cmd-1"
    [.notify matchMsgOK] zeroReads (by rfl)
